import Mathlib

/-!
Verification of the School-Website Express/SQLite backend.

The definitions below are a shallow embedding of the server code:
`server/database.cjs` (the synchronous sql.js wrapper and the schema created
by `initDatabase`) and the Express route handlers of the main server file
(auth middleware, subjects/content/files routes, database export / import /
clear, and `/api/search`).  SQL statements are modelled by their effect on an
in-memory value of type `DB`; SQLite's `PRAGMA foreign_keys = ON` semantics
(ON DELETE CASCADE / SET NULL) are part of the delete operations, and SQL
`LIKE` is modelled with its wildcard and ASCII case-folding semantics.
Timestamps are abstracted as naturals.
-/

/-- SQLite storage values as far as this server uses them. -/
inductive SqlValue where
  | null : SqlValue
  | text : String → SqlValue
  | int : Int → SqlValue
deriving DecidableEq, Repr

/-- An `Option String` column value as stored by SQLite. -/
def optText : Option String → SqlValue
  | some s => .text s
  | none => .null

/-- An `Option Nat` (timestamp) column value as stored by SQLite. -/
def optInt : Option Nat → SqlValue
  | some n => .int n
  | none => .null

/-- Row of the `subjects` table (`id TEXT PRIMARY KEY, name TEXT NOT NULL,
description TEXT, created_at DATETIME DEFAULT CURRENT_TIMESTAMP`). -/
structure SubjectRow where
  id : String
  name : String
  description : Option String
  created_at : Option Nat
deriving DecidableEq, Repr

/-- Row of the `users` table as created by `initDatabase`. -/
structure UserRow where
  id : String
  username : String
  password : String
  full_name : Option String
  role : String
  profile_picture : Option String
  assigned_subject_id : Option String
  is_active : Nat
  created_at : Option Nat
deriving DecidableEq, Repr

/-- Row of the `content` table.  The `media_urls` TEXT column holds a
JSON-encoded array of strings; it is modelled as the array itself. -/
structure ContentRow where
  id : String
  title : String
  body : Option String
  type : String
  subject_id : Option String
  author_id : Option String
  url : Option String
  media_urls : List String
  created_at : Option Nat
  updated_at : Option Nat
deriving DecidableEq, Repr

/-- Row of the `files` table. -/
structure FileRow where
  id : String
  content_id : String
  filename : String
  stored_filename : String
  mime_type : String
  size : Nat
  uploaded_at : Option Nat
deriving DecidableEq, Repr

/-- The whole SQLite database held in memory by sql.js. -/
structure DB where
  users : List UserRow
  subjects : List SubjectRow
  content : List ContentRow
  files : List FileRow
deriving DecidableEq, Repr

/-- Column names of the `users` table (schema in `initDatabase`). -/
def usersColumns : List String :=
  ["id", "username", "password", "full_name", "role", "profile_picture",
   "assigned_subject_id", "is_active", "created_at"]

/-- Whether the `users` table has a column with the given name. -/
def usersHasCol (c : String) : Bool := usersColumns.contains c

/-- Value of the named column of a `users` row; `none` when the table has no
such column (SQLite refuses to prepare a statement naming it). -/
def UserRow.col (u : UserRow) (c : String) : Option SqlValue :=
  if c = "id" then some (.text u.id)
  else if c = "username" then some (.text u.username)
  else if c = "password" then some (.text u.password)
  else if c = "full_name" then some (optText u.full_name)
  else if c = "role" then some (.text u.role)
  else if c = "profile_picture" then some (optText u.profile_picture)
  else if c = "assigned_subject_id" then some (optText u.assigned_subject_id)
  else if c = "is_active" then some (.int u.is_active)
  else if c = "created_at" then some (optInt u.created_at)
  else none

/-! ## The synchronous database wrapper (`server/database.cjs`)

`dbWrapper.prepare(sql).run(...)` executes the statement against the
in-memory database and then calls `saveDB()`, which serializes the whole
in-memory database and writes it to `server/school.db`.  `dbWrapper.exec`
does the same without bound parameters.  A statement is modelled by its
effect `DB → Except String DB` (SQLite statements are atomic: a throwing
statement leaves the database unchanged). -/

/-- Wrapper state: the in-memory database and the image last written to the
on-disk file `server/school.db` (serialization itself is not modelled; the
disk holds the exported database value). -/
structure WrapperState where
  mem : DB
  disk : DB
deriving DecidableEq, Repr

/-- Function `saveDB()`: export the in-memory database and write it to disk. -/
def saveDB (s : WrapperState) : WrapperState := { s with disk := s.mem }

/-- Method `dbWrapper.prepare(sql).run(...)`: run the statement, then `saveDB()`;
a thrown error is re-thrown and `saveDB()` is skipped. -/
def dbWrapperRun (stmt : DB → Except String DB) (s : WrapperState) :
    Except String WrapperState :=
  match stmt s.mem with
  | .ok mem' => .ok (saveDB { s with mem := mem' })
  | .error e => .error e

/-- Method `dbWrapper.exec(sql)`: run the statement, then `saveDB()`. -/
def dbWrapperExec (stmt : DB → Except String DB) (s : WrapperState) :
    Except String WrapperState :=
  match stmt s.mem with
  | .ok mem' => .ok (saveDB { s with mem := mem' })
  | .error e => .error e

/-! ## JWT auth middleware (`authenticateToken`, `isAdmin`) -/

/-- The payload `jwt.sign` puts into a token at login. -/
structure JwtPayload where
  id : String
  username : String
  role : String
deriving DecidableEq, Repr

/-- A bearer token: either produced by `jwt.sign` with some secret, or an
arbitrary malformed string.  `jwt.verify` only accepts tokens signed with
the server's secret. -/
inductive Token where
  | signed : JwtPayload → String → Token
  | malformed : String → Token
deriving DecidableEq, Repr

/-- Function `jwt.verify(token, secret)`: the payload when the token was signed with
`secret`, otherwise verification fails. -/
def jwtVerify (t : Token) (secret : String) : Option JwtPayload :=
  match t with
  | .signed p s => if s = secret then some p else none
  | .malformed _ => none

/-- A JSON route response: HTTP status plus either an error body or a
payload. -/
structure ApiResponse (α : Type) where
  status : Nat
  body : Except String α
deriving Repr

/-- The `authenticateToken` middleware composed with a route handler: a
missing token answers 401, a token that fails `jwt.verify` answers 403, and
only a verified payload reaches the handler (source lines 272-285). -/
def authenticateToken {α : Type} (secret : String)
    (handler : JwtPayload → DB → ApiResponse α × DB)
    (tok : Option Token) (db : DB) : ApiResponse α × DB :=
  match tok with
  | none => (⟨401, .error "Access token required"⟩, db)
  | some t =>
    match jwtVerify t secret with
    | none => (⟨403, .error "Invalid token"⟩, db)
    | some p => handler p db

/-- The `isAdmin` middleware composed with a route handler. -/
def isAdminGuard {α : Type} (handler : JwtPayload → DB → ApiResponse α × DB)
    (p : JwtPayload) (db : DB) : ApiResponse α × DB :=
  if p.role ≠ "admin" then (⟨403, .error "Admin access required"⟩, db)
  else handler p db

/-- The request carries no valid bearer token: either no token at all or one
that `jwt.verify` rejects. -/
def noValidToken (secret : String) (tok : Option Token) : Prop :=
  match tok with
  | none => True
  | some t => jwtVerify t secret = none

/-! ## Deletes and `PRAGMA foreign_keys = ON` cascade semantics

`initDatabase` declares
`users.assigned_subject_id REFERENCES subjects(id) ON DELETE SET NULL`,
`content.subject_id REFERENCES subjects(id) ON DELETE SET NULL`,
`content.author_id REFERENCES users(id) ON DELETE SET NULL`, and
`files.content_id REFERENCES content(id) ON DELETE CASCADE`.
Each delete operation below applies the declared referential action to the
rows that reference a row it actually deletes. -/

/-- Statement `DELETE FROM subjects WHERE id = ?` with its SET NULL actions. -/
def deleteSubjectRow (sid : String) (db : DB) : DB :=
  if db.subjects.any (fun s => s.id == sid) then
    { db with
      subjects := db.subjects.filter (fun s => !(s.id == sid)),
      users := db.users.map (fun u =>
        if u.assigned_subject_id == some sid then
          { u with assigned_subject_id := none } else u),
      content := db.content.map (fun c =>
        if c.subject_id == some sid then { c with subject_id := none } else c) }
  else db

/-- Statement `DELETE FROM users WHERE id = ?` with its SET NULL action. -/
def deleteUserRow (uid : String) (db : DB) : DB :=
  if db.users.any (fun u => u.id == uid) then
    { db with
      users := db.users.filter (fun u => !(u.id == uid)),
      content := db.content.map (fun c =>
        if c.author_id == some uid then { c with author_id := none } else c) }
  else db

/-- Statement `DELETE FROM content WHERE id = ?` with its CASCADE action on `files`. -/
def deleteContentRow (cid : String) (db : DB) : DB :=
  if db.content.any (fun c => c.id == cid) then
    { db with
      content := db.content.filter (fun c => !(c.id == cid)),
      files := db.files.filter (fun f => !(f.content_id == cid)) }
  else db

/-- Statement `DELETE FROM files` (no table references `files`). -/
def clearFiles (db : DB) : DB := { db with files := [] }

/-- Statement `DELETE FROM content`: every content row is deleted, cascading to the
`files` rows that reference a deleted content row. -/
def clearContent (db : DB) : DB :=
  { db with
    content := [],
    files := db.files.filter (fun f =>
      !(db.content.any (fun c => c.id == f.content_id))) }

/-- SET NULL action of a subjects delete on one `users` row: the assignment
is nulled when it referenced a deleted subject. -/
def nullAssignedIfRef (subs : List SubjectRow) (u : UserRow) : UserRow :=
  match u.assigned_subject_id with
  | some sid =>
    if subs.any (fun s => s.id == sid) then { u with assigned_subject_id := none }
    else u
  | none => u

/-- SET NULL action of a subjects delete on one `content` row. -/
def nullSubjectIfRef (subs : List SubjectRow) (c : ContentRow) : ContentRow :=
  match c.subject_id with
  | some sid =>
    if subs.any (fun s => s.id == sid) then { c with subject_id := none } else c
  | none => c

/-- Statement `DELETE FROM subjects`: every subject is deleted, with SET NULL actions
on `users.assigned_subject_id` and `content.subject_id`. -/
def clearSubjects (db : DB) : DB :=
  { db with
    subjects := [],
    users := db.users.map (nullAssignedIfRef db.subjects),
    content := db.content.map (nullSubjectIfRef db.subjects) }

/-- Statement `DELETE FROM users WHERE username != 'admin'`, with the SET NULL action
on `content.author_id` for each deleted user. -/
def clearNonAdminUsers (db : DB) : DB :=
  { db with
    users := db.users.filter (fun u => u.username == "admin"),
    content := db.content.map (fun c =>
      match c.author_id with
      | some a =>
        if db.users.any (fun u => !(u.username == "admin") && u.id == a) then
          { c with author_id := none }
        else c
      | none => c) }

/-- Referential integrity of the database: every `files` row references an
existing content row, and every non-null `subject_id` / `author_id` /
`assigned_subject_id` references an existing row. -/
def refIntegrity (db : DB) : Bool :=
  db.files.all (fun f => db.content.any (fun c => c.id == f.content_id)) &&
  db.content.all (fun c =>
    match c.subject_id with
    | some sid => db.subjects.any (fun s => s.id == sid)
    | none => true) &&
  db.content.all (fun c =>
    match c.author_id with
    | some a => db.users.any (fun u => u.id == a)
    | none => true) &&
  db.users.all (fun u =>
    match u.assigned_subject_id with
    | some sid => db.subjects.any (fun s => s.id == sid)
    | none => true)

/-! ## SQL `LIKE` (default SQLite semantics: `%` and `_` wildcards, ASCII
case-insensitive comparison of literal characters) -/

/-- ASCII lower-casing, as SQLite's default `LIKE` applies it. -/
def lowerAscii (c : Char) : Char :=
  if 'A' ≤ c && c ≤ 'Z' then Char.ofNat (c.toNat + 32) else c

/-- Case-insensitive (ASCII) character comparison used by `LIKE`. -/
def charLikeEq (a b : Char) : Bool := lowerAscii a == lowerAscii b

/-- Fuel-bounded `LIKE` matching step; every recursive call shrinks the
pattern or the string, so `p.length + s.length` fuel always suffices. -/
def likeMatchAux : Nat → List Char → List Char → Bool
  | _, [], s => s.isEmpty
  | 0, _ :: _, _ => false
  | fuel + 1, a :: p, [] => a == '%' && likeMatchAux fuel p []
  | fuel + 1, a :: p, c :: s =>
    if a = '%' then likeMatchAux fuel p (c :: s) || likeMatchAux fuel (a :: p) s
    else if a = '_' then likeMatchAux fuel p s
    else charLikeEq a c && likeMatchAux fuel p s

/-- SQLite `LIKE` pattern matching: `%` matches any sequence, `_` any single
character, any other pattern character one ASCII-case-insensitively equal
character. -/
def likeMatch (p s : List Char) : Bool :=
  likeMatchAux (p.length + s.length) p s

/-- The pattern `'%' + q + '%'` built by the search route. -/
def likePattern (q : List Char) : List Char := '%' :: (q ++ ['%'])

/-- Whether `q` contains neither of the `LIKE` wildcard characters. -/
def wildcardFree (q : List Char) : Bool :=
  q.all (fun c => !(c == '%') && !(c == '_'))

/-! ## Search route helpers -/

/-- JavaScript `parseInt` on a string: optional leading whitespace and sign,
then leading base-10 digits; `none` for NaN. -/
def jsParseInt (s : String) : Option Int :=
  let l := s.data.dropWhile (fun c => c.isWhitespace)
  let signAndRest : Int × List Char :=
    match l with
    | '-' :: rest => (-1, rest)
    | '+' :: rest => (1, rest)
    | _ => (1, l)
  let ds := signAndRest.2.takeWhile Char.isDigit
  if ds.isEmpty then none
  else some (signAndRest.1 *
    (ds.foldl (fun acc c => acc * 10 + ((c.toNat - 48 : Nat) : Int)) 0))

/-- Expression `Math.min(parseInt(limit) || 20, 100)` with the route's destructuring
default of `20` for a missing `limit` parameter (`parseInt` of a number or
NaN or `0` falls back to `20` via `||`). -/
def searchLimitOf (limit : Option String) : Int :=
  let parsed : Int :=
    match limit with
    | none => 20
    | some s =>
      match jsParseInt s with
      | none => 20
      | some n => if n = 0 then 20 else n
  min parsed 100

/-- SQL `LIMIT ?`: a negative limit returns all rows. -/
def takeLimit (n : Int) (l : List α) : List α :=
  if n < 0 then l else l.take n.toNat

/-- Insert into a list sorted by `le`. -/
def insertBy (le : α → α → Bool) (a : α) : List α → List α
  | [] => [a]
  | b :: l => if le a b then a :: b :: l else b :: insertBy le a l

/-- Insertion sort by `le` (the model of SQL `ORDER BY`). -/
def sortListBy (le : α → α → Bool) : List α → List α
  | [] => []
  | a :: l => insertBy le a (sortListBy le l)

/-- Comparison for `ORDER BY created_at DESC` (SQL NULLs sort last under DESC). -/
def createdDescLe (a b : Option Nat) : Bool :=
  match a, b with
  | some x, some y => y ≤ x
  | some _, none => true
  | none, some _ => false
  | none, none => true

/-- Sorting for `ORDER BY c.created_at DESC` on content rows. -/
def sortByCreatedDesc (l : List ContentRow) : List ContentRow :=
  sortListBy (fun a b => createdDescLe a.created_at b.created_at) l

/-- Sorting for `ORDER BY name ASC` on subject rows. -/
def sortByNameAsc (l : List SubjectRow) : List SubjectRow :=
  sortListBy (fun a b => !(decide (b.name < a.name))) l

/-- Sorting for `ORDER BY username ASC` on user rows. -/
def sortByUsernameAsc (l : List UserRow) : List UserRow :=
  sortListBy (fun a b => !(decide (b.username < a.username))) l

/-- A content search result row: `c.*` plus the LEFT JOINed author and
subject columns. -/
structure SearchContentRow where
  row : ContentRow
  author_name : Option String
  author_full_name : Option String
  subject_name : Option String
deriving DecidableEq, Repr

/-- Joins `LEFT JOIN users u ON c.author_id = u.id` and
`LEFT JOIN subjects s ON c.subject_id = s.id` for one content row. -/
def enrichContent (db : DB) (c : ContentRow) : SearchContentRow :=
  let author := c.author_id.bind (fun a => db.users.find? (fun u => u.id == a))
  let subj := c.subject_id.bind (fun sid => db.subjects.find? (fun s => s.id == sid))
  { row := c
    author_name := author.map (fun u => u.username)
    author_full_name := author.bind (fun u => u.full_name)
    subject_name := subj.map (fun s => s.name) }

/-- The columns the user search branch SELECTs. -/
structure SearchUserRow where
  id : String
  username : String
  full_name : Option String
  role : String
  is_active : Nat
  created_at : Option Nat
deriving DecidableEq, Repr

/-- Projection of a `users` row onto the searched columns. -/
def projectSearchUser (u : UserRow) : SearchUserRow :=
  ⟨u.id, u.username, u.full_name, u.role, u.is_active, u.created_at⟩

/-- The body the search route answers with. -/
structure SearchResults where
  content : List SearchContentRow
  subjects : List SubjectRow
  users : List SearchUserRow
  total : Nat
deriving DecidableEq, Repr

/-- JavaScript `String.prototype.trim`: drop whitespace from both ends. -/
def jsTrim (s : String) : String :=
  String.mk
    (((s.data.dropWhile Char.isWhitespace).reverse.dropWhile
      Char.isWhitespace).reverse)

/-- Check `if (!q || q.trim().length === 0)`: a missing, empty, or
whitespace-only query. -/
def searchQEmpty (q : Option String) : Bool :=
  match q with
  | none => true
  | some s => s == "" || jsTrim s == ""

/-- Check `!type || type === 'all' || type === 'content'` (an empty string is
falsy in JavaScript). -/
def typeOkContent (t : Option String) : Bool :=
  match t with
  | none => true
  | some s => s == "" || s == "all" || s == "content"

/-- Check `!type || type === 'all' || type === 'subjects'`. -/
def typeOkSubjects (t : Option String) : Bool :=
  match t with
  | none => true
  | some s => s == "" || s == "all" || s == "subjects"

/-- Check `!type || type === 'all' || type === 'users'`. -/
def typeOkUsers (t : Option String) : Bool :=
  match t with
  | none => true
  | some s => s == "" || s == "all" || s == "users"

/-- Check `req.user && req.user.role === 'admin'`. -/
def reqUserIsAdmin (reqUser : Option JwtPayload) : Bool :=
  match reqUser with
  | some u => u.role == "admin"
  | none => false

/-- The `GET /api/search` handler body (source lines 1173-1244): the three
`LIKE`-filtered, ordered, limited result lists and their total.  `reqUser`
is the value of `req.user` when the handler runs. -/
def searchHandler (reqUser : Option JwtPayload)
    (q type limit : Option String) (db : DB) : SearchResults :=
  if searchQEmpty q then ⟨[], [], [], 0⟩
  else
    let qt := (jsTrim (q.getD "")).data
    let pat := likePattern qt
    let lim := searchLimitOf limit
    let contentRes :=
      if typeOkContent type then
        (takeLimit lim (sortByCreatedDesc (db.content.filter (fun c =>
          likeMatch pat c.title.data ||
            (match c.body with
             | some b => likeMatch pat b.data
             | none => false))))).map (enrichContent db)
      else []
    let subjectsRes :=
      if typeOkSubjects type then
        takeLimit lim (sortByNameAsc (db.subjects.filter (fun s =>
          likeMatch pat s.name.data ||
            (match s.description with
             | some d => likeMatch pat d.data
             | none => false))))
      else []
    let usersRes :=
      if typeOkUsers type && reqUserIsAdmin reqUser then
        (takeLimit lim (sortByUsernameAsc (db.users.filter (fun u =>
          likeMatch pat u.username.data ||
            (match u.full_name with
             | some f => likeMatch pat f.data
             | none => false))))).map projectSearchUser
      else []
    ⟨contentRes, subjectsRes, usersRes,
      contentRes.length + subjectsRes.length + usersRes.length⟩

/-- A request to `GET /api/search`: the (ignored) bearer token and the query
parameters. -/
structure SearchReq where
  token : Option Token
  q : Option String
  type : Option String
  limit : Option String

/-- The registered `/api/search` route: `app.get('/api/search', handler)`
without any auth middleware, so `req.user` is never set when the handler
runs, whatever Authorization header the request carries. -/
def apiSearchRoute (r : SearchReq) (db : DB) : SearchResults :=
  searchHandler none r.q r.type r.limit db

/-! ## `GET /api/subjects` (no auth middleware, source lines 504-514) -/

/-- A bare request as the unauthenticated routes see it. -/
structure Request where
  token : Option Token

/-- The `GET /api/subjects` handler: `SELECT * FROM subjects ORDER BY name`,
status 200. -/
def getSubjectsHandler (db : DB) : ApiResponse (List SubjectRow) :=
  ⟨200, .ok (sortByNameAsc db.subjects)⟩

/-- The registered `/api/subjects` route:
`app.get('/api/subjects', (req, res) => ...)` — no `authenticateToken` in
the middleware chain. -/
def apiSubjectsRoute (_r : Request) (db : DB) : ApiResponse (List SubjectRow) × DB :=
  (getSubjectsHandler db, db)

/-! ## `GET /api/database/export` (source lines 1040-1058)

The route runs
`SELECT id, username, full_name, role, subject_id, active, created_at FROM users`.
The `users` table created by `initDatabase` has no columns named
`subject_id` or `active` (they are `assigned_subject_id` and `is_active`),
so SQLite fails to prepare the statement and the route's catch answers 500. -/

/-- The column names of the export route's users SELECT. -/
def exportUserSelectColumns : List String :=
  ["id", "username", "full_name", "role", "subject_id", "active", "created_at"]

/-- Run the export route's users SELECT: SQLite refuses the statement when a
selected column does not exist in the table. -/
def selectUsersExportRows (db : DB) : Except String (List (List SqlValue)) :=
  if exportUserSelectColumns.all usersHasCol then
    .ok (db.users.map (fun u => exportUserSelectColumns.filterMap u.col))
  else .error "no such column: subject_id"

/-- The JSON document `GET /api/database/export` is meant to answer with. -/
structure ExportPayload where
  users : List (List SqlValue)
  subjects : List SubjectRow
  content : List ContentRow
  files : List FileRow
  version : String
deriving Repr

/-- The `GET /api/database/export` handler body (after `authenticateToken`
and `isAdmin`). -/
def exportDatabaseHandler (db : DB) : ApiResponse ExportPayload :=
  match selectUsersExportRows db with
  | .ok rows => ⟨200, .ok ⟨rows, db.subjects, db.content, db.files, "2.0.0"⟩⟩
  | .error _ => ⟨500, .error "Failed to export database"⟩

/-! ## `POST /api/database/import` (source lines 1061-1129) -/

/-- A subject object of the uploaded JSON document (`id` is modelled as
required; timestamps as optional naturals). -/
structure ImportedSubject where
  id : String
  name : Option String
  description : Option String
  created_at : Option Nat
deriving DecidableEq, Repr

/-- A user object of the uploaded JSON document, with the fields the import
loop reads (`subject_id` and `active` — the export-format names). -/
structure ImportedUser where
  id : String
  username : Option String
  password : Option String
  full_name : Option String
  role : Option String
  subject_id : Option String
  active : Option Nat
  created_at : Option Nat
deriving DecidableEq, Repr

/-- A content object of the uploaded JSON document. -/
structure ImportedContent where
  id : String
  title : Option String
  body : Option String
  type : Option String
  subject_id : Option String
  author_id : Option String
  created_at : Option Nat
  updated_at : Option Nat
deriving DecidableEq, Repr

/-- A file object of the uploaded JSON document. -/
structure ImportedFile where
  id : String
  content_id : Option String
  filename : Option String
  stored_filename : Option String
  mime_type : Option String
  size : Option Nat
  uploaded_at : Option Nat
deriving DecidableEq, Repr

/-- The parsed request body of the import route.  A `none` list stands for
an absent field or one that fails the route's `Array.isArray` check. -/
structure ImportData where
  version : Option String
  subjects : Option (List ImportedSubject)
  users : Option (List ImportedUser)
  content : Option (List ImportedContent)
  files : Option (List ImportedFile)
deriving Repr

/-- Statement `INSERT OR REPLACE INTO subjects (id, name, description, created_at)`:
NOT NULL on `name`; REPLACE removes a previous row with the same id. -/
def insertImportedSubject (db : DB) (s : ImportedSubject) : Except String DB :=
  match s.name with
  | none => .error "NOT NULL constraint failed: subjects.name"
  | some name =>
    .ok { db with subjects :=
      db.subjects.filter (fun x => !(x.id == s.id)) ++
        [⟨s.id, name, s.description, s.created_at⟩] }

/-- The column names of the import route's users INSERT (source line 1089). -/
def importUserColumns : List String :=
  ["id", "username", "password", "full_name", "role", "subject_id", "active",
   "created_at"]

/-- Statement `INSERT OR REPLACE INTO users (id, username, password, full_name, role,
subject_id, active, created_at)`: the statement names the columns
`subject_id` and `active`, which the `users` table does not have, so SQLite
fails to prepare it before binding any values; no execution semantics exist
for the statement. -/
def insertImportedUser (db : DB) (_u : ImportedUser) : Except String DB :=
  if importUserColumns.all usersHasCol then
    .ok db
  else .error "table users has no column named subject_id"

/-- Statement `INSERT OR REPLACE INTO content (id, title, body, type, subject_id,
author_id, created_at, updated_at)`: NOT NULL on `title` and `type`, the
CHECK constraint on `type`, foreign keys to `subjects` and `users`
(`PRAGMA foreign_keys = ON`); `media_urls` takes its declared default and
`url` is NULL.  REPLACE removes a previous row with the same id. -/
def insertImportedContent (db : DB) (c : ImportedContent) : Except String DB :=
  match c.title with
  | none => .error "NOT NULL constraint failed: content.title"
  | some title =>
    match c.type with
    | none => .error "NOT NULL constraint failed: content.type"
    | some ty =>
      if !(ty == "news" || ty == "preparation" || ty == "material") then
        .error "CHECK constraint failed: content"
      else if !(match c.subject_id with
                | some sid => db.subjects.any (fun s => s.id == sid)
                | none => true) then
        .error "FOREIGN KEY constraint failed"
      else if !(match c.author_id with
                | some a => db.users.any (fun u => u.id == a)
                | none => true) then
        .error "FOREIGN KEY constraint failed"
      else
        .ok { db with content :=
          db.content.filter (fun x => !(x.id == c.id)) ++
            [⟨c.id, title, c.body, ty, c.subject_id, c.author_id, none, [],
              c.created_at, c.updated_at⟩] }

/-- Statement `INSERT OR REPLACE INTO files (id, content_id, filename, stored_filename,
mime_type, size, uploaded_at)`: NOT NULL columns, foreign key to `content`;
REPLACE removes previous rows conflicting on the id or on the UNIQUE
`stored_filename`. -/
def insertImportedFile (db : DB) (f : ImportedFile) : Except String DB :=
  match f.content_id, f.filename, f.stored_filename, f.mime_type, f.size with
  | some cid, some fn, some sfn, some mt, some sz =>
    if db.content.any (fun c => c.id == cid) then
      .ok { db with files :=
        db.files.filter (fun x => !(x.id == f.id) && !(x.stored_filename == sfn)) ++
          [⟨f.id, cid, fn, sfn, mt, sz, f.uploaded_at⟩] }
    else .error "FOREIGN KEY constraint failed"
  | _, _, _, _, _ => .error "NOT NULL constraint failed: files"

/-- The import loop over `data.users`: rows named `admin` are skipped, every
other row is handed to the users INSERT. -/
def importUsersLoop (us : List ImportedUser) (db : DB) : Except String DB :=
  us.foldlM (fun db u =>
    if u.username == some "admin" then .ok db else insertImportedUser db u) db

/-- The statements of the import route's inner try block, in source order:
clear the four tables (keeping admin users), then insert the imported
subjects, users, content and files. -/
def importBody (d : ImportData) (db : DB) : Except String DB := do
  let db := clearFiles db
  let db := clearContent db
  let db := clearSubjects db
  let db := clearNonAdminUsers db
  let db ← (d.subjects.getD []).foldlM insertImportedSubject db
  let db ← importUsersLoop (d.users.getD []) db
  let db ← (d.content.getD []).foldlM insertImportedContent db
  let db ← (d.files.getD []).foldlM insertImportedFile db
  return db

/-- Check `if (!data || !data.version)` — a missing body or a falsy `version`. -/
def importDataValid (d : Option ImportData) : Bool :=
  match d with
  | none => false
  | some data =>
    match data.version with
    | none => false
    | some v => !(v == "")

/-- The `POST /api/database/import` handler (after `authenticateToken` and
`isAdmin`): validation, `BEGIN TRANSACTION`, the try block, `COMMIT` on
success, `ROLLBACK` (restoring the pre-transaction database) and a 500
response on any error. -/
def importDatabaseHandler (d : Option ImportData) (db : DB) :
    ApiResponse String × DB :=
  if !importDataValid d then (⟨400, .error "Invalid database file"⟩, db)
  else
    match importBody ((d.getD ⟨none, none, none, none, none⟩)) db with
    | .ok db' => (⟨200, .ok "Database imported successfully"⟩, db')
    | .error _ => (⟨500, .error "Failed to import database"⟩, db)

/-! ## `POST /api/database/clear` (source lines 1132-1166) -/

/-- The statements of the clear route's try block, in source order (the
on-disk upload files are removed first; the filesystem is not modelled). -/
def clearDatabaseBody (db : DB) : DB :=
  clearNonAdminUsers (clearSubjects (clearContent (clearFiles db)))

/-- The `POST /api/database/clear` handler (after `authenticateToken` and
`isAdmin`); none of its statements can fail. -/
def clearDatabaseHandler (db : DB) : ApiResponse String × DB :=
  (⟨200, .ok "Database cleared successfully"⟩, clearDatabaseBody db)

/-! ## `POST /api/content` (source lines 854-908) -/

/-- The request body of `POST /api/content`. -/
structure CreateContentBody where
  title : Option String
  body : Option String
  type : Option String
  subject_id : Option String
  urls : Option (List String)

/-- JavaScript `x || null` on an optional string: an absent or empty string
becomes NULL. -/
def jsOrNull (x : Option String) : Option String :=
  match x with
  | some s => if s = "" then none else some s
  | none => none

/-- A content row joined with its author columns, as the create / update /
get-by-id routes answer. -/
structure ContentJoined where
  row : ContentRow
  author_name : Option String
  author_full_name : Option String
deriving DecidableEq, Repr

/-- Join `LEFT JOIN users u ON c.author_id = u.id` for one content row. -/
def joinAuthor (db : DB) (c : ContentRow) : ContentJoined :=
  let author := c.author_id.bind (fun a => db.users.find? (fun u => u.id == a))
  { row := c
    author_name := author.map (fun u => u.username)
    author_full_name := author.bind (fun u => u.full_name) }

/-- Statement `INSERT INTO content (id, title, body, type, subject_id, author_id,
media_urls) VALUES (...)`: NOT NULL and CHECK constraints, foreign keys,
and primary key uniqueness. -/
def insertContentRow (db : DB) (c : ContentRow) : Except String DB :=
  if db.content.any (fun x => x.id == c.id) then
    .error "UNIQUE constraint failed: content.id"
  else if !(c.type == "news" || c.type == "preparation" || c.type == "material") then
    .error "CHECK constraint failed: content"
  else if !(match c.subject_id with
            | some sid => db.subjects.any (fun s => s.id == sid)
            | none => true) then
    .error "FOREIGN KEY constraint failed"
  else if !(match c.author_id with
            | some a => db.users.any (fun u => u.id == a)
            | none => true) then
    .error "FOREIGN KEY constraint failed"
  else .ok { db with content := db.content ++ [c] }

/-- The `POST /api/content` handler body (after `authenticateToken`): the
teacher subject check, then the INSERT (any thrown error is caught and
answered with 500).  `now` stands for `Date.now()`. -/
def postContentHandler (p : JwtPayload) (b : CreateContentBody) (now : Nat)
    (db : DB) : ApiResponse ContentJoined × DB :=
  -- if (req.user.role === 'teacher') check subject_id against the user's row
  if p.role = "teacher" then
    match db.users.find? (fun u => u.id == p.id) with
    | none =>
      -- `user` is undefined: reading `user.assigned_subject_id` throws,
      -- the catch answers 500
      (⟨500, .error "Failed to create content"⟩, db)
    | some u =>
      match b.subject_id with
      | some s =>
        if s ≠ "" && !(u.assigned_subject_id == some s) then
          (⟨403, .error "Teachers can only post to their assigned subject"⟩, db)
        else postContentInsert p b now db
      | none => postContentInsert p b now db
  else postContentInsert p b now db
where
  /-- The INSERT and re-SELECT after the permission check. -/
  postContentInsert (p : JwtPayload) (b : CreateContentBody) (now : Nat)
      (db : DB) : ApiResponse ContentJoined × DB :=
    let row : ContentRow :=
      { id := "content-" ++ toString now
        title := (jsOrNull b.title).getD ""
        body := b.body
        type := (jsOrNull b.type).getD ""
        subject_id := jsOrNull b.subject_id
        author_id := jsOrNull (some p.id)
        url := none
        media_urls := b.urls.getD []
        created_at := some now
        updated_at := some now }
    -- `title || null` / `type || null`: a missing or empty value is bound
    -- as NULL and violates the NOT NULL constraint
    if (jsOrNull b.title).isNone then
      (⟨500, .error "Failed to create content"⟩, db)
    else if (jsOrNull b.type).isNone then
      (⟨500, .error "Failed to create content"⟩, db)
    else
      match insertContentRow db row with
      | .ok db' => (⟨201, .ok (joinAuthor db' row)⟩, db')
      | .error _ => (⟨500, .error "Failed to create content"⟩, db)

/-! ## `POST /api/files/upload` (source lines 568-643) and `decodeFilename` -/

/-- Encoding `Buffer.from(s, 'latin1')`: each UTF-16 code unit is truncated to its
low byte (multer's `originalname` values only hold code points below 256). -/
def latin1Encode (s : List Char) : List Nat := s.map (fun c => c.toNat % 256)

/-- The U+FFFD replacement character emitted for invalid byte sequences. -/
def replChar : Char := Char.ofNat 0xFFFD

/-- Whether a byte is a UTF-8 continuation byte. -/
def contByte (b : Nat) : Bool := 0x80 ≤ b && b < 0xC0

/-- Whether the first continuation byte is admissible for the given lead
byte (rules out overlong encodings, surrogates, and values above U+10FFFF). -/
def contByteOkFor (lead b : Nat) : Bool :=
  if lead = 0xE0 then 0xA0 ≤ b && b < 0xC0
  else if lead = 0xED then 0x80 ≤ b && b < 0xA0
  else if lead = 0xF0 then 0x90 ≤ b && b < 0xC0
  else if lead = 0xF4 then 0x80 ≤ b && b < 0x90
  else contByte b

/-- Fuel-bounded UTF-8 decoding step; one byte at least is consumed per
emitted character, so `l.length` fuel always suffices. -/
def utf8DecodeAux : Nat → List Nat → List Char
  | _, [] => []
  | 0, _ => []
  | fuel + 1, b :: rest =>
    if b < 0x80 then Char.ofNat b :: utf8DecodeAux fuel rest
    else if b < 0xC2 then replChar :: utf8DecodeAux fuel rest
    else if b < 0xE0 then
      match rest with
      | b1 :: rest1 =>
        if contByte b1 then
          Char.ofNat ((b - 0xC0) * 0x40 + (b1 - 0x80)) :: utf8DecodeAux fuel rest1
        else replChar :: utf8DecodeAux fuel (b1 :: rest1)
      | [] => [replChar]
    else if b < 0xF0 then
      match rest with
      | b1 :: b2 :: rest2 =>
        if contByteOkFor b b1 && contByte b2 then
          Char.ofNat ((b - 0xE0) * 0x1000 + (b1 - 0x80) * 0x40 + (b2 - 0x80)) ::
            utf8DecodeAux fuel rest2
        else replChar :: utf8DecodeAux fuel (b1 :: b2 :: rest2)
      | r => replChar :: utf8DecodeAux fuel r
    else if b < 0xF5 then
      match rest with
      | b1 :: b2 :: b3 :: rest3 =>
        if contByteOkFor b b1 && contByte b2 && contByte b3 then
          Char.ofNat ((b - 0xF0) * 0x40000 + (b1 - 0x80) * 0x1000 +
            (b2 - 0x80) * 0x40 + (b3 - 0x80)) :: utf8DecodeAux fuel rest3
        else replChar :: utf8DecodeAux fuel (b1 :: b2 :: b3 :: rest3)
      | r => replChar :: utf8DecodeAux fuel r
    else replChar :: utf8DecodeAux fuel rest

/-- Decoding `buffer.toString('utf8')`: decode a byte list as UTF-8, emitting U+FFFD
for invalid sequences and resuming at the offending byte. -/
def utf8Decode (l : List Nat) : List Char := utf8DecodeAux l.length l

/-- Function `decodeFilename`:
`Buffer.from(filename, 'latin1').toString('utf8')` (source lines 49-57). -/
def decodeFilename (filename : String) : String :=
  String.mk (utf8Decode (latin1Encode filename.data))

/-- A file as multer hands it to the route: the client-sent original name
and the generated unique on-disk name
`timestamp-randomstring-originalname`. -/
structure UploadedFile where
  originalname : String
  filename : String
  mimetype : String
  size : Nat
deriving DecidableEq, Repr

/-- One element of the 201 response's `files` array. -/
structure RespFile where
  id : String
  filename : String
  mime_type : String
  size : Nat
deriving DecidableEq, Repr

/-- Statement `INSERT INTO files (id, content_id, filename, stored_filename, mime_type,
size) VALUES (...)`: primary key and UNIQUE `stored_filename`, foreign key
to `content`. -/
def insertFileRow (db : DB) (f : FileRow) : Except String DB :=
  if db.files.any (fun x => x.id == f.id) then
    .error "UNIQUE constraint failed: files.id"
  else if db.files.any (fun x => x.stored_filename == f.stored_filename) then
    .error "UNIQUE constraint failed: files.stored_filename"
  else if db.content.any (fun c => c.id == f.content_id) then
    .ok { db with files := db.files ++ [f] }
  else .error "FOREIGN KEY constraint failed"

/-- The `files` row the upload loop builds for the `i`-th file:
`filename` is the decoded original name, `stored_filename` the generated
on-disk name.  `genId i` stands for
`file-Date.now()-randomBytes(4).toString('hex')`. -/
def uploadRowOf (genId : Nat → String) (cid : String) (now : Nat) (i : Nat)
    (f : UploadedFile) : FileRow :=
  { id := genId i
    content_id := cid
    filename := decodeFilename f.originalname
    stored_filename := f.filename
    mime_type := f.mimetype
    size := f.size
    uploaded_at := some now }

/-- The response entry the upload loop pushes for the `i`-th file. -/
def uploadRespOf (genId : Nat → String) (i : Nat) (f : UploadedFile) : RespFile :=
  { id := genId i
    filename := decodeFilename f.originalname
    mime_type := f.mimetype
    size := f.size }

/-- The upload route's insert loop: each file's metadata row is inserted
(each insert is saved immediately; there is no transaction), and a thrown
insert error aborts the loop with the rows inserted so far kept. -/
def saveFilesLoop (genId : Nat → String) (cid : String) (now : Nat) :
    Nat → List UploadedFile → DB → Except String (List RespFile × DB)
  | _, [], db => .ok ([], db)
  | i, f :: rest, db =>
    match insertFileRow db (uploadRowOf genId cid now i f) with
    | .error e => .error e
    | .ok db' =>
      match saveFilesLoop genId cid now (i + 1) rest db' with
      | .ok (resps, db'') => .ok (uploadRespOf genId i f :: resps, db'')
      | .error e => .error e

/-- The `POST /api/files/upload` handler body (after `authenticateToken` and
multer): the `req.files` and `content_id` validations, then the insert
loop; a thrown error answers 500 with the rows inserted before the error
kept (each insert was already saved). -/
def uploadFilesHandler (files : List UploadedFile) (content_id : Option String)
    (genId : Nat → String) (now : Nat) (db : DB) :
    ApiResponse (List RespFile) × DB :=
  if files.isEmpty then (⟨400, .error "No files uploaded"⟩, db)
  else
    match jsOrNull content_id with
    | none => (⟨400, .error "content_id is required"⟩, db)
    | some cid =>
      match saveFilesLoop genId cid now 0 files db with
      | .ok (resps, db') => (⟨201, .ok resps⟩, db')
      | .error _ => (⟨500, .error "Failed to upload files"⟩, db)

/-- The rows the upload loop is expected to append for a file list, for the
statement of the upload theorem. -/
def expectedUploadRows (genId : Nat → String) (cid : String) (now : Nat) :
    Nat → List UploadedFile → List FileRow
  | _, [] => []
  | i, f :: rest => uploadRowOf genId cid now i f ::
      expectedUploadRows genId cid now (i + 1) rest

/-- The response entries the upload loop is expected to collect. -/
def expectedUploadResps (genId : Nat → String) :
    Nat → List UploadedFile → List RespFile
  | _, [] => []
  | i, f :: rest => uploadRespOf genId i f :: expectedUploadResps genId (i + 1) rest

/-! ## Specification-side predicates

These follow the claim wording, to be compared with the code-side
definitions above. -/

/-- The claim's "title or body contains `q` as a substring": literal,
case-sensitive containment. -/
def containsSubstr (needle hay : String) : Prop := needle.data <:+: hay.data

/-- Containment as a substring up to ASCII case, the relation SQLite's
default `LIKE '%q%'` actually decides for a wildcard-free `q`. -/
def ciContains (needle hay : List Char) : Prop :=
  needle.map lowerAscii <:+: hay.map lowerAscii

/-- Boolean form of `ciContains`. -/
def ciContainsB (needle hay : List Char) : Bool :=
  decide (needle.map lowerAscii <:+: hay.map lowerAscii)

/-- The content rows the amended search claim describes: title or body
contains the trimmed query up to ASCII case. -/
def searchContentPred (qt : List Char) (c : ContentRow) : Bool :=
  ciContainsB qt c.title.data ||
    (match c.body with
     | some b => ciContainsB qt b.data
     | none => false)

/-- The admin row after a `DELETE FROM subjects`: the assignment is nulled
exactly when it referenced an existing subject. -/
def adminRowAfterClear (db : DB) (u : UserRow) : UserRow :=
  nullAssignedIfRef db.subjects u

/-! ## Concrete inputs for witnesses and counterexamples -/

/-- The empty database. -/
def emptyDB : DB := ⟨[], [], [], []⟩

/-- The default admin row created by `initDatabase`. -/
def exAdmin : UserRow :=
  ⟨"admin-1", "admin", "hash-admin123", some "Administrator", "admin",
   none, none, 1, some 0⟩

/-- An admin row that was later assigned subject `1` through
`PUT /api/users/:id`. -/
def exAdminAssigned : UserRow :=
  ⟨"admin-1", "admin", "hash-admin123", some "Administrator", "admin",
   none, some "1", 1, some 0⟩

/-- A teacher assigned subject `1`. -/
def exTeacher : UserRow :=
  ⟨"user-100", "teacher1", "hash-t", some "Teacher One", "teacher",
   none, some "1", 1, some 1⟩

/-- A sample subject. -/
def exSubject : SubjectRow := ⟨"1", "Mathematics", some "Math", some 0⟩

/-- A second sample subject. -/
def exSubject2 : SubjectRow := ⟨"2", "Arabic", some "Arabic language", some 0⟩

/-- A sample content row. -/
def exContent : ContentRow :=
  ⟨"content-1", "Hello", none, "news", some "1", some "admin-1", none, [],
   some 10, some 10⟩

/-- A sample file row attached to `exContent`. -/
def exFile : FileRow :=
  ⟨"file-1", "content-1", "a.txt", "170-ab-a.txt", "text/plain", 3, some 11⟩

/-- A small database satisfying referential integrity. -/
def exDB : DB := ⟨[exAdmin, exTeacher], [exSubject, exSubject2], [exContent], [exFile]⟩

/-- A database whose admin row is assigned an existing subject. -/
def exDB10 : DB := ⟨[exAdminAssigned], [exSubject], [], []⟩

/-- A non-admin user object of an uploaded import document. -/
def exImportedUser : ImportedUser :=
  ⟨"user-7", some "bob", some "hash-b", some "Bob", some "teacher",
   some "1", some 1, some 2⟩

/-- An admin-named user object of an uploaded import document. -/
def exImportedAdmin : ImportedUser :=
  ⟨"admin-1", some "admin", some "hash-admin123", some "Administrator",
   some "admin", none, some 1, some 0⟩

/-- An import document carrying one non-admin user (its INSERT throws). -/
def exImportData : ImportData :=
  ⟨some "2.0.0", some [⟨"3", some "English", none, some 3⟩],
   some [exImportedUser], none, none⟩

/-- An import document whose only user object is named `admin`. -/
def exImportDataAdminOnly : ImportData :=
  ⟨some "2.0.0", some [⟨"3", some "English", none, some 3⟩],
   some [exImportedAdmin],
   some [⟨"content-9", some "T", some "B", some "news", some "3", none,
     some 4, some 4⟩],
   none⟩

/-- An uploaded file whose original name holds the latin1-decoded bytes
`0xD9 0x85` (the UTF-8 encoding of the Arabic letter meem). -/
def exUpload : UploadedFile :=
  ⟨String.mk [Char.ofNat 0xD9, Char.ofNat 0x85], "170-cafe-name.bin",
   "application/octet-stream", 5⟩

/-- A deterministic stand-in for the generated file ids. -/
def exGenId (i : Nat) : String := "file-9-" ++ toString i

/-- A statement for the wrapper witness: `DELETE FROM files`. -/
def exStmt (db : DB) : Except String DB := .ok (clearFiles db)

/-- A failing statement for the wrapper witness. -/
def exFailStmt (_db : DB) : Except String DB := .error "SQLITE_ERROR"

/-- A wrapper state whose disk image is stale. -/
def exWrapperState : WrapperState := ⟨exDB, emptyDB⟩

/-- A trivial authenticated handler for the auth-guard witness. -/
def exHandler (_p : JwtPayload) (db : DB) : ApiResponse Nat × DB :=
  (⟨200, .ok 0⟩, db)

/-- A request body for the teacher-scope witness: non-empty `subject_id`
different from the teacher's assigned subject. -/
def exCreateBody : CreateContentBody :=
  ⟨some "T", some "B", some "news", some "2", none⟩

/-- The teacher's JWT payload. -/
def exTeacherPayload : JwtPayload := ⟨"user-100", "teacher1", "teacher"⟩

/-- The database produced by a successful import of
`exImportDataAdminOnly` into `exDB`. -/
def exImportedDB : DB :=
  match importBody exImportDataAdminOnly exDB with
  | .ok d => d
  | .error _ => emptyDB

/-- The response entries of the example upload. -/
def exUploadResps : List RespFile :=
  [⟨exGenId 0, decodeFilename exUpload.originalname,
    "application/octet-stream", 5⟩]

/-- The database after the example upload. -/
def exUploadDB : DB :=
  { exDB with
    files := exDB.files ++ expectedUploadRows exGenId "content-1" 7 0 [exUpload] }

/-- The single content row of the case-insensitivity counterexample. -/
def exContentHello : ContentRow :=
  ⟨"content-1", "Hello", none, "news", none, none, none, [], some 10, some 10⟩

/-- A database holding only the `Hello` content row. -/
def exDB7 : DB := ⟨[], [], [exContentHello], []⟩

/-! # Theorems -/

/-- The import route's users INSERT always fails to prepare: it names the
columns `subject_id` and `active`, absent from the `users` table. -/
theorem insertImportedUser_fails (db : DB) (u : ImportedUser) :
    insertImportedUser db u = .error "table users has no column named subject_id" := by
  have h : importUserColumns.all usersHasCol = false := by decide
  simp [insertImportedUser, h]

/-- Claim C1: every `dbWrapper.prepare(sql).run(...)` or `dbWrapper.exec(sql)`
call that does not throw leaves the on-disk `server/school.db` image equal to
the export of the in-memory database: the wrapper re-serializes and writes
the whole database immediately after the statement. -/
theorem run_saves_db_after_every_write (stmt : DB → Except String DB)
    (s s' : WrapperState)
    (h : dbWrapperRun stmt s = .ok s' ∨ dbWrapperExec stmt s = .ok s') :
    s'.disk = s'.mem := by
  rcases h with h | h <;>
  · first
    | (unfold dbWrapperRun at h) | (unfold dbWrapperExec at h)
    cases hs : stmt s.mem with
    | ok m => rw [hs] at h; cases h; rfl
    | error e => rw [hs] at h; cases h

/-- Witness for C1 at a concrete statement and wrapper state. -/
theorem run_saves_db_after_every_write_witness :
    dbWrapperRun exStmt exWrapperState = .ok ⟨clearFiles exDB, clearFiles exDB⟩ ∧
    (⟨clearFiles exDB, clearFiles exDB⟩ : WrapperState).disk =
      (⟨clearFiles exDB, clearFiles exDB⟩ : WrapperState).mem :=
  ⟨rfl, run_saves_db_after_every_write exStmt exWrapperState
    ⟨clearFiles exDB, clearFiles exDB⟩ (Or.inl rfl)⟩

/-- Claim C2, counterexample: `GET /api/subjects` is registered without any
auth middleware; a request with no bearer token is answered 200, not 401 or
403, so not every `/api/*` route rejects token-less requests. -/
theorem subjects_route_no_auth_cex :
    (apiSubjectsRoute ⟨none⟩ exDB).1.status = 200 ∧
    ¬((apiSubjectsRoute ⟨none⟩ exDB).1.status = 401 ∨
      (apiSubjectsRoute ⟨none⟩ exDB).1.status = 403) := by
  decide

/-- Claim C2, amended: every route guarded by the `authenticateToken`
middleware answers 401 (missing token) or 403 (invalid token) to a request
carrying no valid bearer token, and leaves the database unchanged; routes
registered without the middleware (such as `GET /api/subjects`) do not. -/
theorem auth_guard_rejects_missing_or_invalid_token (α : Type) (secret : String)
    (handler : JwtPayload → DB → ApiResponse α × DB) (tok : Option Token)
    (db : DB) (hnv : noValidToken secret tok) :
    ((authenticateToken secret handler tok db).1.status = 401 ∨
     (authenticateToken secret handler tok db).1.status = 403) ∧
    (authenticateToken secret handler tok db).2 = db := by
  cases tok with
  | none => exact ⟨Or.inl rfl, rfl⟩
  | some t =>
    have hv : jwtVerify t secret = none := hnv
    simp [authenticateToken, hv]

/-- Witness for the amended C2 at a concrete token-less request. -/
theorem auth_guard_rejects_missing_or_invalid_token_witness :
    noValidToken "school-management-secret-key-2025" none ∧
    (((authenticateToken "school-management-secret-key-2025" exHandler none
        emptyDB).1.status = 401 ∨
      (authenticateToken "school-management-secret-key-2025" exHandler none
        emptyDB).1.status = 403) ∧
     (authenticateToken "school-management-secret-key-2025" exHandler none
        emptyDB).2 = emptyDB) :=
  ⟨trivial, auth_guard_rejects_missing_or_invalid_token Nat
    "school-management-secret-key-2025" exHandler none emptyDB trivial⟩

/-- Claim C3: when any statement of the import's transaction throws, the
transaction is rolled back, the route answers 500, and the database is
exactly what it was before the request. -/
theorem import_rollback_on_error (d : ImportData) (db : DB) (e : String)
    (hv : importDataValid (some d) = true)
    (herr : importBody d db = .error e) :
    importDatabaseHandler (some d) db =
      (⟨500, .error "Failed to import database"⟩, db) := by
  unfold importDatabaseHandler
  simp [hv, herr]

/-- Witness for C3: importing a document with one non-admin user throws
(the users INSERT names nonexistent columns), and the database is left
untouched with a 500 answer. -/
theorem import_rollback_on_error_witness :
    importDataValid (some exImportData) = true ∧
    importBody exImportData exDB =
      .error "table users has no column named subject_id" ∧
    importDatabaseHandler (some exImportData) exDB =
      (⟨500, .error "Failed to import database"⟩, exDB) :=
  ⟨rfl, rfl, import_rollback_on_error exImportData exDB
    "table users has no column named subject_id" rfl rfl⟩

/-- Claim C4: the export route's users SELECT names the columns
`subject_id` and `active`, which the `users` table does not have
(`assigned_subject_id`, `is_active`), so `GET /api/database/export` never
succeeds: it answers 500 on every database. -/
theorem export_route_always_500 (db : DB) :
    (exportDatabaseHandler db).status = 500 := by
  have h : exportUserSelectColumns.all usersHasCol = false := by decide
  simp [exportDatabaseHandler, selectUsersExportRows, h]

/-- Claim C9: whatever Authorization header a `GET /api/search` request
carries, the route has no auth middleware, `req.user` is never set, the
admin-gated user search branch never runs, and the `users` field of the
response is empty. -/
theorem search_route_users_always_empty (r : SearchReq) (db : DB) :
    (apiSearchRoute r db).users = [] := by
  unfold apiSearchRoute searchHandler
  by_cases h : searchQEmpty r.q
  · simp [h]
  · simp [h, reqUserIsAdmin]

/-- Claim C8: a POST /api/content request from a teacher whose body carries
a non-empty `subject_id` different from the teacher's assigned subject is
answered 403 and inserts nothing. -/
theorem teacher_scope_rejected (p : JwtPayload) (b : CreateContentBody)
    (now : Nat) (db : DB) (u : UserRow) (s : String)
    (hrole : p.role = "teacher")
    (hfind : db.users.find? (fun x => x.id == p.id) = some u)
    (hs : b.subject_id = some s) (hne : s ≠ "")
    (hdiff : u.assigned_subject_id ≠ some s) :
    postContentHandler p b now db =
      (⟨403, .error "Teachers can only post to their assigned subject"⟩, db) := by
  unfold postContentHandler
  simp [hrole, hfind, hs, hne, hdiff]

/-- Witness for C8: a teacher assigned subject `1` posting to subject `2`. -/
theorem teacher_scope_rejected_witness :
    postContentHandler exTeacherPayload exCreateBody 5 exDB =
      (⟨403, .error "Teachers can only post to their assigned subject"⟩, exDB) :=
  teacher_scope_rejected exTeacherPayload exCreateBody 5 exDB exTeacher "2"
    rfl rfl rfl (by decide) (by decide)

/-- A users-loop run that succeeds did not change the database: every
non-admin row makes the INSERT throw, and admin-named rows are skipped. -/
theorem importUsersLoop_ok (us : List ImportedUser) (db db' : DB)
    (h : importUsersLoop us db = .ok db') : db' = db := by
  induction us generalizing db with
  | nil =>
    have h' : Except.ok (ε := String) db = .ok db' := h
    exact (Except.ok.inj h').symm
  | cons u rest ih =>
    unfold importUsersLoop at h
    rw [List.foldlM_cons] at h
    by_cases hu : u.username == some "admin"
    · simp only [hu, ite_true] at h
      exact ih db h
    · rw [if_neg (by simp [hu]), insertImportedUser_fails] at h
      simp [Bind.bind, Except.bind] at h

/-- A successful subjects INSERT touches only the `subjects` table. -/
theorem insertImportedSubject_tables (db x : DB) (s : ImportedSubject)
    (h : insertImportedSubject db s = .ok x) :
    x.users = db.users ∧ x.content = db.content ∧ x.files = db.files := by
  unfold insertImportedSubject at h
  cases hn : s.name with
  | none => rw [hn] at h; cases h
  | some n => rw [hn] at h; cases h; exact ⟨rfl, rfl, rfl⟩

/-- A successful subjects import loop touches only the `subjects` table. -/
theorem foldlM_subjects_tables (l : List ImportedSubject) (db db' : DB)
    (h : l.foldlM insertImportedSubject db = .ok db') :
    db'.users = db.users ∧ db'.content = db.content ∧ db'.files = db.files := by
  induction l generalizing db with
  | nil =>
    have h' : Except.ok (ε := String) db = .ok db' := h
    cases Except.ok.inj h'
    exact ⟨rfl, rfl, rfl⟩
  | cons s rest ih =>
    rw [List.foldlM_cons] at h
    cases hs : insertImportedSubject db s with
    | error e => rw [hs] at h; simp [Bind.bind, Except.bind] at h
    | ok x =>
      rw [hs] at h
      simp only [Bind.bind, Except.bind] at h
      obtain ⟨h1, h2, h3⟩ := insertImportedSubject_tables db x s hs
      obtain ⟨g1, g2, g3⟩ := ih x h
      exact ⟨h1 ▸ g1, h2 ▸ g2, h3 ▸ g3⟩

/-- A successful content INSERT leaves the `users` table unchanged. -/
theorem insertImportedContent_users (db x : DB) (c : ImportedContent)
    (h : insertImportedContent db c = .ok x) : x.users = db.users := by
  unfold insertImportedContent at h
  cases ht : c.title with
  | none => rw [ht] at h; cases h
  | some t =>
    rw [ht] at h
    cases hy : c.type with
    | none => rw [hy] at h; cases h
    | some ty =>
      rw [hy] at h
      repeat' split at h
      all_goals cases h
      all_goals rfl

/-- A successful content import loop leaves the `users` table unchanged. -/
theorem foldlM_content_users (l : List ImportedContent) (db db' : DB)
    (h : l.foldlM insertImportedContent db = .ok db') : db'.users = db.users := by
  induction l generalizing db with
  | nil =>
    have h' : Except.ok (ε := String) db = .ok db' := h
    cases Except.ok.inj h'
    rfl
  | cons c rest ih =>
    rw [List.foldlM_cons] at h
    cases hc : insertImportedContent db c with
    | error e => rw [hc] at h; simp [Bind.bind, Except.bind] at h
    | ok x =>
      rw [hc] at h
      simp only [Bind.bind, Except.bind] at h
      exact (ih x h).trans (insertImportedContent_users db x c hc)

/-- A successful files INSERT leaves the `users` table unchanged. -/
theorem insertImportedFile_users (db x : DB) (f : ImportedFile)
    (h : insertImportedFile db f = .ok x) : x.users = db.users := by
  unfold insertImportedFile at h
  split at h
  · split at h
    · cases h; rfl
    · cases h
  · cases h

/-- A successful files import loop leaves the `users` table unchanged. -/
theorem foldlM_files_users (l : List ImportedFile) (db db' : DB)
    (h : l.foldlM insertImportedFile db = .ok db') : db'.users = db.users := by
  induction l generalizing db with
  | nil =>
    have h' : Except.ok (ε := String) db = .ok db' := h
    cases Except.ok.inj h'
    rfl
  | cons f rest ih =>
    rw [List.foldlM_cons] at h
    cases hf : insertImportedFile db f with
    | error e => rw [hf] at h; simp [Bind.bind, Except.bind] at h
    | ok x =>
      rw [hf] at h
      simp only [Bind.bind, Except.bind] at h
      exact (ih x h).trans (insertImportedFile_users db x f hf)

/-- The users table of the cleared database. -/
theorem clearDatabaseBody_users (db : DB) :
    (clearDatabaseBody db).users =
      (db.users.map (nullAssignedIfRef db.subjects)).filter
        (fun u => u.username == "admin") := rfl

/-- Lemma: `nullAssignedIfRef` only touches the assignment field. -/
theorem nullAssignedIfRef_fields (subs : List SubjectRow) (u : UserRow) :
    { nullAssignedIfRef subs u with
        assigned_subject_id := u.assigned_subject_id } = u := by
  obtain ⟨i, un, pw, fn, ro, pp, asg, act, cr⟩ := u
  cases asg with
  | none => rfl
  | some sid =>
    by_cases hs : subs.any (fun s => s.id == sid)
    · simp [nullAssignedIfRef, hs]
    · simp [nullAssignedIfRef, hs]

/-- Lemma: `nullAssignedIfRef` preserves the username. -/
theorem nullAssignedIfRef_username (subs : List SubjectRow) (u : UserRow) :
    (nullAssignedIfRef subs u).username = u.username := by
  cases ha : u.assigned_subject_id with
  | none => simp [nullAssignedIfRef, ha]
  | some sid =>
    by_cases hs : subs.any (fun s => s.id == sid)
    · simp [nullAssignedIfRef, ha, hs]
    · simp [nullAssignedIfRef, ha, hs]

/-- Claim C10, counterexample: for a database whose admin row is assigned an
existing subject, `POST /api/database/clear` succeeds but the admin row does
not survive unchanged — `DELETE FROM subjects` fires the ON DELETE SET NULL
action on `users.assigned_subject_id`, so the row is altered. -/
theorem clear_changes_admin_row_cex :
    (clearDatabaseHandler exDB10).2.users =
      [{ exAdminAssigned with assigned_subject_id := none }] ∧
    ({ exAdminAssigned with assigned_subject_id := none } : UserRow) ≠
      exAdminAssigned ∧
    exAdminAssigned ∉ (clearDatabaseHandler exDB10).2.users := by
  decide

/-- Claim C10, amended: after a successful `POST /api/database/clear` or
`POST /api/database/import`, every user row named `admin` is still present
with all fields except `assigned_subject_id` unchanged; its
`assigned_subject_id` is set to NULL by the subjects-delete cascade exactly
when it referenced an existing subject.  The delete statements exclude
username `admin`, imported rows named `admin` are skipped, and every other
imported user row aborts the import (its INSERT names nonexistent
columns), so no imported row replaces the admin row. -/
theorem admin_row_survives_amended (db : DB) (u : UserRow)
    (hu : u ∈ db.users) (hname : u.username = "admin") :
    ({ adminRowAfterClear db u with
        assigned_subject_id := u.assigned_subject_id } = u) ∧
    adminRowAfterClear db u ∈ (clearDatabaseHandler db).2.users ∧
    ∀ d db', importBody d db = .ok db' → adminRowAfterClear db u ∈ db'.users := by
  have hfields := nullAssignedIfRef_fields db.subjects u
  have husername := nullAssignedIfRef_username db.subjects u
  have hmem : adminRowAfterClear db u ∈ (clearDatabaseBody db).users := by
    rw [clearDatabaseBody_users]
    refine List.mem_filter.mpr ⟨List.mem_map.mpr ⟨u, hu, rfl⟩, ?_⟩
    simp only [adminRowAfterClear, husername, hname, beq_self_eq_true]
  refine ⟨hfields, hmem, ?_⟩
  intro d db' h
  unfold importBody at h
  dsimp only [] at h
  cases hA : (d.subjects.getD []).foldlM insertImportedSubject
      (clearNonAdminUsers (clearSubjects (clearContent (clearFiles db)))) with
  | error e => rw [hA] at h; simp [Bind.bind, Except.bind] at h
  | ok dbA =>
    rw [hA] at h
    simp only [Bind.bind, Except.bind] at h
    cases hB : importUsersLoop (d.users.getD []) dbA with
    | error e => rw [hB] at h; simp at h
    | ok dbB =>
      rw [hB] at h
      simp only [] at h
      cases hC : (d.content.getD []).foldlM insertImportedContent dbB with
      | error e => rw [hC] at h; simp at h
      | ok dbC =>
        rw [hC] at h
        simp only [] at h
        cases hD : (d.files.getD []).foldlM insertImportedFile dbC with
        | error e => rw [hD] at h; simp at h
        | ok dbD =>
          rw [hD] at h
          cases h
          have e1 := (foldlM_subjects_tables _ _ _ hA).1
          have e2 := importUsersLoop_ok _ _ _ hB
          have e3 := foldlM_content_users _ _ _ hC
          have e4 := foldlM_files_users _ _ _ hD
          rw [e4, e3, e2, e1]
          exact hmem

/-- Witness for the amended C10: the default admin survives a clear and a
successful import of a document whose only user object is admin-named. -/
theorem admin_row_survives_amended_witness :
    importBody exImportDataAdminOnly exDB = .ok exImportedDB ∧
    adminRowAfterClear exDB exAdmin ∈ (clearDatabaseHandler exDB).2.users ∧
    adminRowAfterClear exDB exAdmin ∈ exImportedDB.users :=
  ⟨rfl,
   (admin_row_survives_amended exDB exAdmin (by decide) rfl).2.1,
   (admin_row_survives_amended exDB exAdmin (by decide) rfl).2.2
     exImportDataAdminOnly exImportedDB rfl⟩

/-- The SET NULL rewrite of a subjects delete keeps content ids. -/
theorem subjNull_id (sid : String) (c : ContentRow) :
    (if c.subject_id == some sid then { c with subject_id := none } else c).id
      = c.id := by
  split <;> rfl

/-- The SET NULL rewrite of a subjects delete keeps content authors. -/
theorem subjNull_author (sid : String) (c : ContentRow) :
    (if c.subject_id == some sid then { c with subject_id := none } else c).author_id
      = c.author_id := by
  split <;> rfl

/-- The SET NULL rewrite of a subjects delete keeps user ids. -/
theorem userNull_id (sid : String) (u : UserRow) :
    (if u.assigned_subject_id == some sid then
      { u with assigned_subject_id := none } else u).id = u.id := by
  split <;> rfl

/-- The SET NULL rewrite of a users delete keeps content ids. -/
theorem authorNull_id (uid : String) (c : ContentRow) :
    (if c.author_id == some uid then { c with author_id := none } else c).id
      = c.id := by
  split <;> rfl

/-- The SET NULL rewrite of a users delete keeps content subjects. -/
theorem authorNull_subject (uid : String) (c : ContentRow) :
    (if c.author_id == some uid then { c with author_id := none } else c).subject_id
      = c.subject_id := by
  split <;> rfl

/-- Deleting a subject nulls every reference to it and preserves
referential integrity. -/
theorem deleteSubjectRow_props (db : DB) (h : refIntegrity db = true)
    (sid : String) :
    refIntegrity (deleteSubjectRow sid db) = true ∧
    (∀ u ∈ (deleteSubjectRow sid db).users, u.assigned_subject_id ≠ some sid) ∧
    (∀ c ∈ (deleteSubjectRow sid db).content, c.subject_id ≠ some sid) := by
  simp only [refIntegrity, Bool.and_eq_true] at h
  obtain ⟨⟨⟨hf, hcs⟩, hca⟩, hua⟩ := h
  rw [List.all_eq_true] at hf hcs hca hua
  by_cases hex : db.subjects.any (fun s => s.id == sid)
  · unfold deleteSubjectRow
    rw [if_pos hex]
    refine ⟨?_, ?_, ?_⟩
    · simp only [refIntegrity, Bool.and_eq_true]
      refine ⟨⟨⟨?_, ?_⟩, ?_⟩, ?_⟩
      · -- files reference existing content
        rw [List.all_eq_true]
        intro f hfm
        have := hf f hfm
        rw [List.any_eq_true] at this ⊢
        obtain ⟨c, hc, hcid⟩ := this
        exact ⟨_, List.mem_map.mpr ⟨c, hc, rfl⟩, by rwa [subjNull_id]⟩
      · -- content subject references
        rw [List.all_eq_true]
        intro c' hc'
        rw [List.mem_map] at hc'
        obtain ⟨c, hc, rfl⟩ := hc'
        by_cases hcsid : c.subject_id == some sid
        · rw [if_pos hcsid]
        · rw [if_neg hcsid]
          have := hcs c hc
          cases hsub : c.subject_id with
          | none => simp
          | some sid' =>
            rw [hsub] at this
            simp only []
            rw [List.any_eq_true] at this ⊢
            obtain ⟨s, hs, hsid⟩ := this
            refine ⟨s, List.mem_filter.mpr ⟨hs, ?_⟩, hsid⟩
            rw [beq_iff_eq] at hsid
            have hne : sid' ≠ sid := by
              intro he
              exact hcsid (by rw [hsub, he]; exact beq_self_eq_true _)
            simp [hsid, hne]
      · -- content author references
        rw [List.all_eq_true]
        intro c' hc'
        rw [List.mem_map] at hc'
        obtain ⟨c, hc, rfl⟩ := hc'
        rw [subjNull_author]
        have := hca c hc
        cases hau : c.author_id with
        | none => simp
        | some a =>
          rw [hau] at this
          simp only []
          rw [List.any_eq_true] at this ⊢
          obtain ⟨u, hu, huid⟩ := this
          exact ⟨_, List.mem_map.mpr ⟨u, hu, rfl⟩, by rwa [userNull_id]⟩
      · -- user assignment references
        rw [List.all_eq_true]
        intro u' hu'
        rw [List.mem_map] at hu'
        obtain ⟨u, hu, rfl⟩ := hu'
        by_cases husid : u.assigned_subject_id == some sid
        · rw [if_pos husid]
        · rw [if_neg husid]
          have := hua u hu
          cases hasg : u.assigned_subject_id with
          | none => simp
          | some sid' =>
            rw [hasg] at this
            simp only []
            rw [List.any_eq_true] at this ⊢
            obtain ⟨s, hs, hsid⟩ := this
            refine ⟨s, List.mem_filter.mpr ⟨hs, ?_⟩, hsid⟩
            rw [beq_iff_eq] at hsid
            have hne : sid' ≠ sid := by
              intro he
              exact husid (by rw [hasg, he]; exact beq_self_eq_true _)
            simp [hsid, hne]
    · intro u' hu'
      rw [List.mem_map] at hu'
      obtain ⟨u, hu, rfl⟩ := hu'
      by_cases husid : u.assigned_subject_id == some sid
      · rw [if_pos husid]; simp
      · rw [if_neg husid]
        simpa using husid
    · intro c' hc'
      rw [List.mem_map] at hc'
      obtain ⟨c, hc, rfl⟩ := hc'
      by_cases hcsid : c.subject_id == some sid
      · rw [if_pos hcsid]; simp
      · rw [if_neg hcsid]
        simpa using hcsid
  · -- no such subject: nothing is deleted, and integrity rules out
    -- references to the missing id
    unfold deleteSubjectRow
    rw [if_neg hex]
    refine ⟨?_, ?_, ?_⟩
    · simp only [refIntegrity, Bool.and_eq_true]
      exact ⟨⟨⟨List.all_eq_true.mpr hf, List.all_eq_true.mpr hcs⟩,
        List.all_eq_true.mpr hca⟩, List.all_eq_true.mpr hua⟩
    · intro u hu he
      have := hua u hu
      rw [he] at this
      exact hex this
    · intro c hc he
      have := hcs c hc
      rw [he] at this
      exact hex this

/-- Deleting a user nulls the content author references to it and preserves
referential integrity. -/
theorem deleteUserRow_props (db : DB) (h : refIntegrity db = true)
    (uid : String) :
    refIntegrity (deleteUserRow uid db) = true ∧
    (∀ c ∈ (deleteUserRow uid db).content, c.author_id ≠ some uid) := by
  simp only [refIntegrity, Bool.and_eq_true] at h
  obtain ⟨⟨⟨hf, hcs⟩, hca⟩, hua⟩ := h
  rw [List.all_eq_true] at hf hcs hca hua
  by_cases hex : db.users.any (fun u => u.id == uid)
  · unfold deleteUserRow
    rw [if_pos hex]
    constructor
    · simp only [refIntegrity, Bool.and_eq_true]
      refine ⟨⟨⟨?_, ?_⟩, ?_⟩, ?_⟩
      · rw [List.all_eq_true]
        intro f hfm
        have := hf f hfm
        rw [List.any_eq_true] at this ⊢
        obtain ⟨c, hc, hcid⟩ := this
        exact ⟨_, List.mem_map.mpr ⟨c, hc, rfl⟩, by rwa [authorNull_id]⟩
      · rw [List.all_eq_true]
        intro c' hc'
        rw [List.mem_map] at hc'
        obtain ⟨c, hc, rfl⟩ := hc'
        rw [authorNull_subject]
        exact hcs c hc
      · rw [List.all_eq_true]
        intro c' hc'
        rw [List.mem_map] at hc'
        obtain ⟨c, hc, rfl⟩ := hc'
        by_cases hcau : c.author_id == some uid
        · rw [if_pos hcau]
        · rw [if_neg hcau]
          have := hca c hc
          cases hau : c.author_id with
          | none => simp
          | some a =>
            rw [hau] at this
            simp only []
            rw [List.any_eq_true] at this ⊢
            obtain ⟨u, hu, huid⟩ := this
            refine ⟨u, List.mem_filter.mpr ⟨hu, ?_⟩, huid⟩
            rw [beq_iff_eq] at huid
            have hne : a ≠ uid := by
              intro he
              exact hcau (by rw [hau, he]; exact beq_self_eq_true _)
            simp [huid, hne]
      · rw [List.all_eq_true]
        intro u' hu'
        rw [List.mem_filter] at hu'
        exact hua u' hu'.1
    · intro c' hc'
      rw [List.mem_map] at hc'
      obtain ⟨c, hc, rfl⟩ := hc'
      by_cases hcau : c.author_id == some uid
      · rw [if_pos hcau]; simp
      · rw [if_neg hcau]
        simpa using hcau
  · unfold deleteUserRow
    rw [if_neg hex]
    refine ⟨?_, ?_⟩
    · simp only [refIntegrity, Bool.and_eq_true]
      exact ⟨⟨⟨List.all_eq_true.mpr hf, List.all_eq_true.mpr hcs⟩,
        List.all_eq_true.mpr hca⟩, List.all_eq_true.mpr hua⟩
    · intro c hc he
      have := hca c hc
      rw [he] at this
      exact hex this

/-- Deleting a content row removes its files rows and preserves referential
integrity. -/
theorem deleteContentRow_props (db : DB) (h : refIntegrity db = true)
    (cid : String) :
    refIntegrity (deleteContentRow cid db) = true ∧
    (∀ f ∈ (deleteContentRow cid db).files, f.content_id ≠ cid) := by
  simp only [refIntegrity, Bool.and_eq_true] at h
  obtain ⟨⟨⟨hf, hcs⟩, hca⟩, hua⟩ := h
  rw [List.all_eq_true] at hf hcs hca hua
  by_cases hex : db.content.any (fun c => c.id == cid)
  · unfold deleteContentRow
    rw [if_pos hex]
    constructor
    · simp only [refIntegrity, Bool.and_eq_true]
      refine ⟨⟨⟨?_, ?_⟩, ?_⟩, ?_⟩
      · rw [List.all_eq_true]
        intro f hfm
        rw [List.mem_filter] at hfm
        obtain ⟨hfm, hcond⟩ := hfm
        have := hf f hfm
        rw [List.any_eq_true] at this ⊢
        obtain ⟨c, hc, hcid⟩ := this
        refine ⟨c, List.mem_filter.mpr ⟨hc, ?_⟩, hcid⟩
        rw [beq_iff_eq] at hcid
        rw [Bool.not_eq_eq_eq_not, Bool.not_true, beq_eq_false_iff_ne] at hcond ⊢
        rw [hcid]
        exact hcond
      · rw [List.all_eq_true]
        intro c' hc'
        rw [List.mem_filter] at hc'
        exact hcs c' hc'.1
      · rw [List.all_eq_true]
        intro c' hc'
        rw [List.mem_filter] at hc'
        exact hca c' hc'.1
      · exact List.all_eq_true.mpr hua
    · intro f hfm
      rw [List.mem_filter] at hfm
      obtain ⟨_, hcond⟩ := hfm
      simpa using hcond
  · unfold deleteContentRow
    rw [if_neg hex]
    refine ⟨?_, ?_⟩
    · simp only [refIntegrity, Bool.and_eq_true]
      exact ⟨⟨⟨List.all_eq_true.mpr hf, List.all_eq_true.mpr hcs⟩,
        List.all_eq_true.mpr hca⟩, List.all_eq_true.mpr hua⟩
    · intro f hfm he
      have := hf f hfm
      rw [List.any_eq_true] at this
      obtain ⟨c, hc, hcid⟩ := this
      rw [beq_iff_eq] at hcid
      apply hex
      rw [List.any_eq_true]
      exact ⟨c, hc, by rw [hcid, he]; exact beq_self_eq_true _⟩

/-- Claim C5: with the schema's referential actions in force, deleting a
content row removes its files rows, deleting a subject nulls the
`users.assigned_subject_id` and `content.subject_id` references to it,
deleting a user nulls the `content.author_id` references to it, and all
three deletes preserve referential integrity (every files row still
references an existing content row). -/
theorem delete_cascades_referential_integrity (db : DB)
    (h : refIntegrity db = true) :
    (∀ sid : String,
      refIntegrity (deleteSubjectRow sid db) = true ∧
      (∀ u ∈ (deleteSubjectRow sid db).users, u.assigned_subject_id ≠ some sid) ∧
      (∀ c ∈ (deleteSubjectRow sid db).content, c.subject_id ≠ some sid)) ∧
    (∀ uid : String,
      refIntegrity (deleteUserRow uid db) = true ∧
      (∀ c ∈ (deleteUserRow uid db).content, c.author_id ≠ some uid)) ∧
    (∀ cid : String,
      refIntegrity (deleteContentRow cid db) = true ∧
      (∀ f ∈ (deleteContentRow cid db).files, f.content_id ≠ cid)) :=
  ⟨fun sid => deleteSubjectRow_props db h sid,
   fun uid => deleteUserRow_props db h uid,
   fun cid => deleteContentRow_props db h cid⟩

/-- Witness for C5 on a concrete database. -/
theorem delete_cascades_referential_integrity_witness :
    refIntegrity exDB = true ∧
    refIntegrity (deleteSubjectRow "1" exDB) = true ∧
    refIntegrity (deleteUserRow "admin-1" exDB) = true ∧
    refIntegrity (deleteContentRow "content-1" exDB) = true :=
  ⟨by decide,
   ((delete_cascades_referential_integrity exDB (by decide)).1 "1").1,
   ((delete_cascades_referential_integrity exDB (by decide)).2.1 "admin-1").1,
   ((delete_cascades_referential_integrity exDB (by decide)).2.2 "content-1").1⟩

/-- A successful files INSERT appends exactly the given row. -/
theorem insertFileRow_ok (db x : DB) (f : FileRow)
    (h : insertFileRow db f = .ok x) : x.files = db.files ++ [f] := by
  unfold insertFileRow at h
  repeat' split at h
  all_goals cases h
  all_goals rfl

/-- The upload insert loop, when it succeeds, answers the expected response
entries and appends the expected rows. -/
theorem saveFilesLoop_ok (genId : Nat → String) (cid : String) (now : Nat)
    (fs : List UploadedFile) :
    ∀ (i : Nat) (db : DB) (r : List RespFile) (dbE : DB),
    saveFilesLoop genId cid now i fs db = .ok (r, dbE) →
    r = expectedUploadResps genId i fs ∧
    dbE.files = db.files ++ expectedUploadRows genId cid now i fs := by
  induction fs with
  | nil =>
    intro i db r dbE h
    have h' : Except.ok (ε := String) ([], db) = .ok (r, dbE) := h
    cases h'
    exact ⟨rfl, by simp [expectedUploadRows]⟩
  | cons f rest ih =>
    intro i db r dbE h
    unfold saveFilesLoop at h
    cases hins : insertFileRow db (uploadRowOf genId cid now i f) with
    | error e => rw [hins] at h; cases h
    | ok dbI =>
      rw [hins] at h
      dsimp only [] at h
      cases hrec : saveFilesLoop genId cid now (i + 1) rest dbI with
      | error e => rw [hrec] at h; cases h
      | ok pr =>
        obtain ⟨resps, dbF⟩ := pr
        rw [hrec] at h
        cases h
        obtain ⟨e1, e2⟩ := ih (i + 1) dbI resps dbE hrec
        have e3 := insertFileRow_ok db dbI (uploadRowOf genId cid now i f) hins
        refine ⟨by rw [e1]; rfl, ?_⟩
        rw [e2, e3]
        simp [expectedUploadRows, List.append_assoc]

/-- Claim C6: every file accepted by `POST /api/files/upload` is recorded
with `filename` equal to the multer original name re-encoded from latin1
bytes to UTF-8 (`decodeFilename`) and `stored_filename` equal to the
generated unique on-disk name, and the 201 response echoes the re-encoded
names (see `uploadRowOf` and `uploadRespOf`). -/
theorem upload_records_decoded_filename (files : List UploadedFile)
    (content_id : Option String) (cid : String) (genId : Nat → String)
    (now : Nat) (db : DB) (resps : List RespFile) (db' : DB)
    (hcid : jsOrNull content_id = some cid)
    (h : uploadFilesHandler files content_id genId now db =
      (⟨201, .ok resps⟩, db')) :
    resps = expectedUploadResps genId 0 files ∧
    db'.files = db.files ++ expectedUploadRows genId cid now 0 files := by
  unfold uploadFilesHandler at h
  by_cases hemp : files.isEmpty
  · rw [if_pos hemp] at h
    simp [Prod.ext_iff, ApiResponse.mk.injEq] at h
  · rw [if_neg hemp, hcid] at h
    dsimp only [] at h
    cases hloop : saveFilesLoop genId cid now 0 files db with
    | error e =>
      rw [hloop] at h
      simp [Prod.ext_iff, ApiResponse.mk.injEq] at h
    | ok pr =>
      obtain ⟨r0, dbF⟩ := pr
      rw [hloop] at h
      simp only [Prod.mk.injEq, ApiResponse.mk.injEq, Except.ok.injEq] at h
      obtain ⟨⟨-, h1⟩, h2⟩ := h
      obtain ⟨e1, e2⟩ := saveFilesLoop_ok genId cid now files 0 db r0 dbF hloop
      exact ⟨h1 ▸ e1, h2 ▸ e2⟩

/-- Witness for C6: uploading one file whose original name carries the
latin1-decoded UTF-8 bytes of an Arabic letter records and echoes that
letter. -/
theorem upload_records_decoded_filename_witness :
    uploadFilesHandler [exUpload] (some "content-1") exGenId 7 exDB =
      (⟨201, .ok exUploadResps⟩, exUploadDB) ∧
    exUploadResps = expectedUploadResps exGenId 0 [exUpload] ∧
    exUploadDB.files =
      exDB.files ++ expectedUploadRows exGenId "content-1" 7 0 [exUpload] ∧
    decodeFilename exUpload.originalname = String.mk [Char.ofNat 0x645] :=
  ⟨rfl,
   (upload_records_decoded_filename [exUpload] (some "content-1") "content-1"
      exGenId 7 exDB exUploadResps exUploadDB rfl rfl).1,
   (upload_records_decoded_filename [exUpload] (some "content-1") "content-1"
      exGenId 7 exDB exUploadResps exUploadDB rfl rfl).2,
   by decide⟩

/-- Lemma: `likeMatchAux` does not depend on the fuel once it covers the sizes. -/
theorem likeMatchAux_congr : ∀ (f1 f2 : Nat) (p s : List Char),
    p.length + s.length ≤ f1 → p.length + s.length ≤ f2 →
    likeMatchAux f1 p s = likeMatchAux f2 p s := by
  intro f1
  induction f1 with
  | zero =>
    intro f2 p s h1 _h2
    cases p with
    | nil => cases f2 <;> rfl
    | cons a p' => simp [List.length_cons] at h1
  | succ g ih =>
    intro f2 p s h1 h2
    cases p with
    | nil => cases f2 <;> rfl
    | cons a p' =>
      cases f2 with
      | zero => simp [List.length_cons] at h2
      | succ g2 =>
        cases s with
        | nil =>
          simp only [likeMatchAux]
          rw [ih g2 p' []
            (by simp [List.length_cons] at h1 ⊢; omega)
            (by simp [List.length_cons] at h2 ⊢; omega)]
        | cons c s' =>
          simp only [likeMatchAux]
          by_cases hpc : a = '%'
          · simp only [if_pos hpc]
            rw [ih g2 p' (c :: s')
                (by simp [List.length_cons] at h1 ⊢; omega)
                (by simp [List.length_cons] at h2 ⊢; omega),
              ih g2 (a :: p') s'
                (by simp [List.length_cons] at h1 ⊢; omega)
                (by simp [List.length_cons] at h2 ⊢; omega)]
          · by_cases hund : a = '_'
            · simp only [if_neg hpc, if_pos hund]
              rw [ih g2 p' s'
                (by simp [List.length_cons] at h1 ⊢; omega)
                (by simp [List.length_cons] at h2 ⊢; omega)]
            · simp only [if_neg hpc, if_neg hund]
              rw [ih g2 p' s'
                (by simp [List.length_cons] at h1 ⊢; omega)
                (by simp [List.length_cons] at h2 ⊢; omega)]

/-- Unfolding: the empty pattern matches only the empty string. -/
theorem likeMatch_nil_pat (s : List Char) : likeMatch [] s = s.isEmpty := by
  cases s <;> simp [likeMatch, likeMatchAux]

/-- Unfolding: a non-empty pattern against the empty string. -/
theorem likeMatch_cons_nil (a : Char) (p : List Char) :
    likeMatch (a :: p) [] = (a == '%' && likeMatch p []) := by
  unfold likeMatch
  simp only [List.length_cons, List.length_nil, Nat.add_zero]
  simp only [likeMatchAux]

/-- Unfolding: a non-empty pattern against a non-empty string. -/
theorem likeMatch_cons_cons (a : Char) (p : List Char) (c : Char) (s : List Char) :
    likeMatch (a :: p) (c :: s) =
      if a = '%' then likeMatch p (c :: s) || likeMatch (a :: p) s
      else if a = '_' then likeMatch p s
      else charLikeEq a c && likeMatch p s := by
  unfold likeMatch
  simp only [List.length_cons]
  have e : p.length + 1 + (s.length + 1) = (p.length + 1 + s.length) + 1 := by
    omega
  rw [e]
  simp only [likeMatchAux]
  have c1 : likeMatchAux (p.length + 1 + s.length) p (c :: s) =
      likeMatchAux (p.length + (s.length + 1)) p (c :: s) :=
    likeMatchAux_congr _ _ _ _ (by simp [List.length_cons]; try omega)
      (by simp [List.length_cons]; try omega)
  have c3 : likeMatchAux (p.length + 1 + s.length) p s =
      likeMatchAux (p.length + s.length) p s :=
    likeMatchAux_congr _ _ _ _ (by omega) (by omega)
  rw [c1, c3]

/-- The pattern `%` matches every string. -/
theorem likeMatch_percent (s : List Char) : likeMatch ['%'] s = true := by
  induction s with
  | nil => rw [likeMatch_cons_nil]; simp [likeMatch_nil_pat]
  | cons c s ih =>
    rw [likeMatch_cons_cons]
    simp [ih]

/-- A pattern headed by `%` matches exactly the strings with a suffix
matching the rest of the pattern. -/
theorem likeMatch_percent_cons (p : List Char) (s : List Char) :
    likeMatch ('%' :: p) s = true ↔ ∃ t, t <:+ s ∧ likeMatch p t = true := by
  induction s with
  | nil =>
    rw [likeMatch_cons_nil]
    simp only [beq_self_eq_true, Bool.true_and]
    constructor
    · intro h; exact ⟨[], List.suffix_rfl, h⟩
    · rintro ⟨t, ht, hm⟩
      rw [List.suffix_nil] at ht
      exact ht ▸ hm
  | cons c s ih =>
    rw [likeMatch_cons_cons, if_pos rfl]
    simp only [Bool.or_eq_true, ih]
    constructor
    · rintro (h | ⟨t, ht, hm⟩)
      · exact ⟨c :: s, List.suffix_rfl, h⟩
      · exact ⟨t, ht.trans (List.suffix_cons c s), hm⟩
    · rintro ⟨t, ht, hm⟩
      rw [List.suffix_cons_iff] at ht
      rcases ht with rfl | ht
      · exact Or.inl hm
      · exact Or.inr ⟨t, ht, hm⟩

/-- A wildcard-free pattern prefix consumes a case-insensitively equal
string prefix. -/
theorem likeMatch_lit_append (q : List Char) (hw : wildcardFree q = true) :
    ∀ (p s : List Char),
    likeMatch (q ++ p) s = true ↔
      ∃ t1 t2, s = t1 ++ t2 ∧ t1.map lowerAscii = q.map lowerAscii ∧
        likeMatch p t2 = true := by
  induction q with
  | nil =>
    intro p s
    constructor
    · intro h; exact ⟨[], s, rfl, rfl, h⟩
    · rintro ⟨t1, t2, rfl, hmap, hm⟩
      simp only [List.map_nil, List.map_eq_nil_iff] at hmap
      subst hmap
      exact hm
  | cons a q ih =>
    intro p s
    rw [wildcardFree, List.all_cons, Bool.and_eq_true] at hw
    obtain ⟨ha, hq⟩ := hw
    simp only [Bool.and_eq_true, Bool.not_eq_true', beq_eq_false_iff_ne] at ha
    obtain ⟨hap, hau⟩ := ha
    cases s with
    | nil =>
      rw [List.cons_append, likeMatch_cons_nil,
        beq_eq_false_iff_ne.mpr hap, Bool.false_and]
      constructor
      · intro h; cases h
      · rintro ⟨t1, t2, hnil, hmap, -⟩
        have h0 : t1 = [] := (List.append_eq_nil.mp hnil.symm).1
        subst h0
        simp at hmap
    | cons c s' =>
      rw [List.cons_append, likeMatch_cons_cons, if_neg hap, if_neg hau]
      rw [Bool.and_eq_true, ih hq p s']
      constructor
      · rintro ⟨hc, t1, t2, rfl, hmap, hm⟩
        refine ⟨c :: t1, t2, rfl, ?_, hm⟩
        simp only [List.map_cons, hmap]
        unfold charLikeEq at hc
        rw [beq_iff_eq] at hc
        rw [hc]
      · rintro ⟨t1, t2, heq, hmap, hm⟩
        cases t1 with
        | nil => simp at hmap
        | cons x t1' =>
          rw [List.cons_append] at heq
          cases heq
          simp only [List.map_cons, List.cons.injEq] at hmap
          obtain ⟨hx, hmap'⟩ := hmap
          refine ⟨?_, t1', t2, rfl, hmap', hm⟩
          unfold charLikeEq
          rw [beq_iff_eq, hx]

/-- Pattern `LIKE '%q%'` with a wildcard-free `q` decides exactly containment as a
substring up to ASCII case. -/
theorem likeMatch_pattern_iff (qt s : List Char) (hw : wildcardFree qt = true) :
    likeMatch (likePattern qt) s = true ↔
      qt.map lowerAscii <:+: s.map lowerAscii := by
  unfold likePattern
  rw [likeMatch_percent_cons]
  constructor
  · rintro ⟨t, ⟨pre, hpre⟩, hm⟩
    rw [likeMatch_lit_append qt hw] at hm
    obtain ⟨t1, t2, rfl, hmap, -⟩ := hm
    refine ⟨pre.map lowerAscii, t2.map lowerAscii, ?_⟩
    rw [← hpre]
    simp [hmap, List.append_assoc]
  · rintro ⟨l, r, hlr⟩
    have hlr' : s.map lowerAscii = l ++ (qt.map lowerAscii ++ r) := by
      rw [← hlr]; simp [List.append_assoc]
    rw [List.map_eq_append_iff] at hlr'
    obtain ⟨s1, s23, rfl, hm1, hm23⟩ := hlr'
    rw [List.map_eq_append_iff] at hm23
    obtain ⟨s2, s3, rfl, hm2, hm3⟩ := hm23
    refine ⟨s2 ++ s3, ⟨s1, rfl⟩, ?_⟩
    rw [likeMatch_lit_append qt hw]
    exact ⟨s2, s3, rfl, hm2, likeMatch_percent s3⟩

/-- Boolean form of `likeMatch_pattern_iff`. -/
theorem likeMatch_eq_ciContainsB (qt : List Char) (hw : wildcardFree qt = true)
    (hay : List Char) :
    likeMatch (likePattern qt) hay = ciContainsB qt hay := by
  have h1 := likeMatch_pattern_iff qt hay hw
  have h2 : ciContainsB qt hay = true ↔
      qt.map lowerAscii <:+: hay.map lowerAscii := by
    simp [ciContainsB]
  cases hb : ciContainsB qt hay with
  | false =>
    cases hl : likeMatch (likePattern qt) hay with
    | false => rfl
    | true =>
      have hc := h2.mpr (h1.mp hl)
      rw [hb] at hc
      exact Bool.noConfusion hc
  | true => exact h1.mpr (h2.mp hb)

/-- The search route's content row predicate equals the claim-side
case-insensitive containment predicate. -/
theorem searchRowPred_eq (qt : List Char) (hw : wildcardFree qt = true)
    (c : ContentRow) :
    (likeMatch (likePattern qt) c.title.data ||
      (match c.body with
       | some b => likeMatch (likePattern qt) b.data
       | none => false)) = searchContentPred qt c := by
  unfold searchContentPred
  rw [likeMatch_eq_ciContainsB qt hw]
  cases c.body with
  | none => rfl
  | some b =>
    dsimp only []
    rw [likeMatch_eq_ciContainsB qt hw]

/-- Claim C7, counterexample: searching `hello` returns the row titled
`Hello` (SQLite `LIKE` is ASCII case-insensitive), although neither its
title nor its (NULL) body contains `hello` as a substring — so the response
is not exactly the rows whose title or body contains the query as a
substring. -/
theorem search_case_insensitive_cex :
    (apiSearchRoute ⟨none, some "hello", none, none⟩ exDB7).content =
      [enrichContent exDB7 exContentHello] ∧
    ¬ containsSubstr "hello" "Hello" ∧
    exContentHello.title = "Hello" ∧ exContentHello.body = none := by
  refine ⟨by decide, ?_, rfl, rfl⟩
  unfold containsSubstr
  decide

/-- Claim C7, amended: for every `GET /api/search` request whose trimmed
query is non-empty and wildcard-free and whose `type` selects content, the
`content` field holds exactly the content rows whose title or body contains
the trimmed query as a substring up to ASCII case, ordered by `created_at`
descending, truncated to `min(limit, 100)` rows where a missing, NaN or `0`
`limit` falls back to `20` (and a negative one returns all rows), joined
with their author and subject columns; and the returned `total` is the sum
of the three result array lengths. -/
theorem search_content_amended (r : SearchReq) (db : DB)
    (hq : searchQEmpty r.q = false)
    (hw : wildcardFree (jsTrim (r.q.getD "")).data = true)
    (ht : typeOkContent r.type = true) :
    (apiSearchRoute r db).content =
      (takeLimit (searchLimitOf r.limit)
        (sortByCreatedDesc (db.content.filter
          (searchContentPred (jsTrim (r.q.getD "")).data)))).map
        (enrichContent db) ∧
    (apiSearchRoute r db).total =
      (apiSearchRoute r db).content.length +
        (apiSearchRoute r db).subjects.length +
        (apiSearchRoute r db).users.length := by
  unfold apiSearchRoute searchHandler
  rw [hq]
  simp only [Bool.false_eq_true, if_false, ht, if_true]
  constructor
  · rw [List.filter_congr
      (fun c _ => searchRowPred_eq (jsTrim (r.q.getD "")).data hw c)]
  · trivial

/-- Witness for the amended C7: searching `ELL` on a database holding one
`Hello` row. -/
theorem search_content_amended_witness :
    searchQEmpty (some "ELL") = false ∧
    wildcardFree ((jsTrim "ELL").data) = true ∧
    (apiSearchRoute ⟨none, some "ELL", none, none⟩ exDB7).content =
      (takeLimit (searchLimitOf none)
        (sortByCreatedDesc (exDB7.content.filter
          (searchContentPred ((jsTrim "ELL").data))))).map (enrichContent exDB7) ∧
    (apiSearchRoute ⟨none, some "ELL", none, none⟩ exDB7).total =
      (apiSearchRoute ⟨none, some "ELL", none, none⟩ exDB7).content.length +
        (apiSearchRoute ⟨none, some "ELL", none, none⟩ exDB7).subjects.length +
        (apiSearchRoute ⟨none, some "ELL", none, none⟩ exDB7).users.length :=
  ⟨rfl, by decide,
   (search_content_amended ⟨none, some "ELL", none, none⟩ exDB7 rfl
      (by decide) rfl).1,
   (search_content_amended ⟨none, some "ELL", none, none⟩ exDB7 rfl
      (by decide) rfl).2⟩
